import Mathlib

/-!
Verification development for the Smile-Audit dental-clinic auditing app
(`src/app.py`, with a near-duplicate variant in `src/unnamed/part_000`).

The signal-extraction and scoring pipeline is embedded shallowly:
* Python numbers (ints/floats flowing through the scoring arithmetic) are
  modelled as exact rationals (ℚ); Python `round(x, 1)` — documented as
  round-half-to-even — is modelled by `round1` below, exact half-even
  rounding at one decimal place.
* A parsed BeautifulSoup document is modelled by the `Soup` structure,
  recording exactly the observations the extractors make of it
  (`get_text`, the viewport lookup, anchor hrefs, img/video counts, raw
  markup).  An absent document is `Option.none`.
* Python strings are Lean `String`s; `str.count` / the `in` substring test
  / the two regular expressions used by the extractors are implemented
  character-by-character with Python's documented semantics.
* Fallible lookups (Places text search) are oracles
  `String → Option TextSearchResp`, `none` modelling a `None` response.
-/

/-! ### String utilities (Python substring semantics) -/

/-- Python `needle in hay` on lists of characters: `needle` occurs as a
contiguous sublist of `hay` (the empty needle always occurs). -/
def hasSub (hay needle : List Char) : Bool :=
  if needle.isPrefixOf hay then true
  else
    match hay with
    | [] => false
    | _ :: t => hasSub t needle

/-- Python `needle in hay` on strings. -/
def strIn (needle hay : String) : Bool :=
  hasSub hay.data needle.data

/-- Python `s.lower()` (ASCII case folding, applied characterwise). -/
def pyLower (s : String) : String :=
  String.mk (s.data.map Char.toLower)

/-- Lexicographic `<` on character lists by code point (Python string
comparison). -/
def pyLtChars : List Char → List Char → Bool
  | [], [] => false
  | [], _ :: _ => true
  | _ :: _, [] => false
  | a :: as, b :: bs =>
    if a.toNat < b.toNat then true
    else if a.toNat = b.toNat then pyLtChars as bs
    else false

/-- Python `a < b` on strings. -/
def pyStrLt (a b : String) : Bool :=
  pyLtChars a.data b.data

/-- Python `hay.count(needle)` for a non-empty `needle`: number of
non-overlapping occurrences, scanning left to right.  The `fuel`
argument only makes the recursion structural (each step consumes at least
one character, so `hay.length` fuel never runs out). -/
def countOccsGo (needle : List Char) : Nat → List Char → Nat
  | 0, _ => 0
  | _ + 1, [] => 0
  | fuel + 1, c :: rest =>
    if needle.isPrefixOf (c :: rest) then
      1 + countOccsGo needle fuel (rest.drop (needle.length - 1))
    else
      countOccsGo needle fuel rest

/-- Python `hay.count(needle)` (for the empty needle Python returns
`len(hay) + 1`). -/
def countOccs (needle hay : List Char) : Nat :=
  match needle with
  | [] => hay.length + 1
  | _ :: _ => countOccsGo needle hay.length hay

/-! ### Rounding (Python `round(x, 1)`, exact half-even) -/

/-- Round a rational to the nearest integer, ties to even
(Python's built-in `round` semantics, on exact values). -/
def roundHE (q : ℚ) : ℤ :=
  let f : ℤ := ⌊q⌋
  let r : ℚ := q - f
  if r < 1/2 then f
  else if 1/2 < r then f + 1
  else if f % 2 = 0 then f else f + 1

/-- Python `round(q, 1)`: round to one decimal place, ties to even. -/
def round1 (q : ℚ) : ℚ :=
  (roundHE (q * 10) : ℚ) / 10

/-- Rendering step of `format2`: print `n` hundredths as a two-decimals
string. -/
def format2Int (n : ℤ) : String :=
  toString (n / 100) ++ "." ++
    (if (n % 100).toNat < 10 then "0" ++ toString (n % 100).toNat
     else toString (n % 100).toNat)

/-- Python `f"{q:.2f}"` for non-negative `q`: fixed two-decimals formatting
(rounding half to even). -/
def format2 (q : ℚ) : String :=
  format2Int (roundHE (q * 100))

/-! ### Score aggregator (`compute_smile_score`, `src/app.py` lines 396-431)

Inputs: `wh_pct`, `rating`, `reviews_total` are `Option ℚ` — `none` models a
Python value that is not an `int`/`float` (e.g. `None` or the sentinel
string), mirroring the `isinstance(x, (int, float))` guards.  `booking` is
the booking classification string or `None`; the three `*_present` flags are
the booleans computed by the caller. -/

structure SmileInputs where
  wh_pct : Option ℚ
  social_present : String
  rating : Option ℚ
  reviews_total : Option ℚ
  booking : Option String
  hours_present : Bool
  insurance_clear : Bool
  accessibility_present : Bool

/-- `vis_parts` as built by `compute_smile_score`: the website-health
percentage when numeric, then the social-presence contribution — note the
`else` branch appends `0` for any string that is not one of the three
platform labels (including the sentinel). -/
def vis_parts (i : SmileInputs) : List ℚ :=
  (match i.wh_pct with
   | some w => [w]
   | none => []) ++
  [if i.social_present = "Facebook, Instagram" then 100
   else if i.social_present = "Facebook" ∨ i.social_present = "Instagram" then 60
   else 0]

/-- `rep_parts`: rating scaled to a percentage when numeric, review volume
capped at 500 when numeric. -/
def rep_parts (i : SmileInputs) : List ℚ :=
  (match i.rating with
   | some r => [r / 5 * 100]
   | none => []) ++
  (match i.reviews_total with
   | some rt => [min 1 (rt / 500) * 100]
   | none => [])

/-- `exp_parts`: booking (80 online / 40 phone-only via substring tests),
hours, insurance, accessibility presence indicators. -/
def exp_parts (i : SmileInputs) : List ℚ :=
  (match i.booking with
   | some b =>
     if strIn "Online booking" b then [(80 : ℚ)]
     else if strIn "Phone-only" b then [(40 : ℚ)]
     else []
   | none => []) ++
  (if i.hours_present then [(70 : ℚ)] else []) ++
  (if i.insurance_clear then [(80 : ℚ)] else []) ++
  (if i.accessibility_present then [(70 : ℚ)] else [])

/-- `sum(parts)/len(parts) if parts else 0`. -/
def avg0 (l : List ℚ) : ℚ :=
  if l = [] then 0 else l.sum / l.length

/-- Unrounded visibility bucket score `(vis_avg/100)*30`. -/
def vis_score_u (i : SmileInputs) : ℚ :=
  avg0 (vis_parts i) / 100 * 30

/-- Unrounded reputation bucket score `(rep_avg/100)*40`. -/
def rep_score_u (i : SmileInputs) : ℚ :=
  avg0 (rep_parts i) / 100 * 40

/-- Unrounded experience bucket score `(exp_avg/100)*30`. -/
def exp_score_u (i : SmileInputs) : ℚ :=
  avg0 (exp_parts i) / 100 * 30

/-- `compute_smile_score`: returns
`(total, round(vis_score,1), round(rep_score,1), round(exp_score,1))` where
`total = round(vis_score + rep_score + exp_score, 1)` is computed from the
*unrounded* bucket scores. -/
def compute_smile_score (i : SmileInputs) : ℚ × ℚ × ℚ × ℚ :=
  (round1 (vis_score_u i + rep_score_u i + exp_score_u i),
   round1 (vis_score_u i),
   round1 (rep_score_u i),
   round1 (exp_score_u i))

/-! ### Parsed-page model and site signal extractors (`src/app.py` 44-64, 321-385)

`Soup` records exactly the observations the extractors make of a parsed
BeautifulSoup document; an absent document (`fetch_html` failure) is
`Option.none`. -/

structure Soup where
  /-- `soup.get_text(" ", strip=True)`. -/
  text : String
  /-- `soup.find("meta", attrs={"name": "viewport"})` is not `None`. -/
  hasViewportMeta : Bool
  /-- The `href` values of `soup.find_all("a", href=True)`. -/
  hrefs : List String
  /-- `len(soup.find_all("img"))`. -/
  imgCount : Nat
  /-- `len(soup.find_all(["video","source"]))`. -/
  vidCount : Nat
  /-- `str(soup)`: the raw markup. -/
  html : String

/-- Case-insensitive literal match: if the lower-cased text starts with
`pat` (given lower-case), return the remainder. -/
def stripCI (pat : List Char) (l : List Char) : Option (List Char) :=
  match pat, l with
  | [], rest => some rest
  | _ :: _, [] => none
  | p :: ps, c :: cs => if c.toLower = p then stripCI ps cs else none

/-- Match `(19|20)\d{2}` at the head of the list, returning the 4-digit
year (the regex's group 2 in the `established` pattern). -/
def yearAt4 : List Char → Option String
  | '1' :: '9' :: a :: b :: _ =>
    if a.isDigit ∧ b.isDigit then some (String.mk ['1', '9', a, b]) else none
  | '2' :: '0' :: a :: b :: _ =>
    if a.isDigit ∧ b.isDigit then some (String.mk ['2', '0', a, b]) else none
  | _ => none

/-- Try to match `kw\D*((19|20)\d{2})` at the head of `l`
(case-insensitively).  `\D*` cannot cross a digit, so after the keyword the
year must start at the first digit. -/
def estAlt (kw : String) (l : List Char) : Option String :=
  match stripCI kw.data l with
  | some rest => yearAt4 (rest.dropWhile (fun c => ¬ c.isDigit))
  | none => none

/-- Match `(established|since|serving since|founded)\D*((19|20)\d{2})` at
the head of `l`, trying the alternatives in the regex's order. -/
def estAt (l : List Char) : Option String :=
  (estAlt "established" l).orElse fun _ =>
    (estAlt "since" l).orElse fun _ =>
      (estAlt "serving since" l).orElse fun _ =>
        estAlt "founded" l

/-- `re.search` of the `established` pattern: leftmost match, scanning
start positions left to right; returns the captured 4-digit year. -/
def searchEst : List Char → Option String
  | [] => none
  | c :: rest =>
    match estAt (c :: rest) with
    | some y => some y
    | none => searchEst rest

/-- `re.findall(r"(19|20)\d{2}", text)`: non-overlapping matches scanned
left to right.  Because the pattern has a capture group, Python returns the
*group* matches — the two-character strings `"19"` / `"20"` — not the full
four-digit years.  The `fuel` argument only makes the recursion
structural; each step consumes at least one character, so `l.length`
fuel never runs out. -/
def findYearsGo : Nat → List Char → List String
  | 0, _ => []
  | _ + 1, [] => []
  | fuel + 1, c :: rest =>
    match c, rest with
    | '1', '9' :: a :: b :: rest2 =>
      if a.isDigit ∧ b.isDigit then "19" :: findYearsGo fuel rest2
      else findYearsGo fuel rest
    | '2', '0' :: a :: b :: rest2 =>
      if a.isDigit ∧ b.isDigit then "20" :: findYearsGo fuel rest2
      else findYearsGo fuel rest
    | _, _ => findYearsGo fuel rest

def findYears (l : List Char) : List String := findYearsGo l.length l

/-- Python `min` over a non-empty list of strings (lexicographic; the
first occurrence wins ties). -/
def minString : List String → Option String
  | [] => none
  | s :: rest => some (rest.foldl (fun a b => if pyStrLt b a then b else a) s)

/-- `years_in_operation_from_site` (`src/app.py` 44-52): keyword+year
pattern first, else `min` over the `findall` results, else sentinel. -/
def years_in_operation_from_site (soup : Option Soup) : String :=
  match soup with
  | none => "Search limited"
  | some sp =>
    match searchEst sp.text.data with
    | some y => y
    | none =>
      match minString (findYears sp.text.data) with
      | some m => m
      | none => "Search limited"

/-- The fixed specialty keyword vocabulary (`src/app.py` 57-62). -/
def specialtyKeywords : List String :=
  ["general dentistry", "orthodontics", "braces", "implants", "implant", "cosmetic",
   "veneers", "whitening", "endodontics", "root canal", "periodontics", "gum",
   "pediatric", "children", "oral surgery", "tmj", "sleep apnea", "invisalign",
   "prosthodontics", "crowns", "bridges", "dental implants"]

/-- Stable ascending insertion for lexicographic string sort
(Python `sorted`). -/
def insertAsc (x : String) : List String → List String
  | [] => [x]
  | y :: rest => if pyStrLt y x then y :: insertAsc x rest else x :: y :: rest

/-- Python `sorted` on strings (stable, lexicographic). -/
def sortStrings : List String → List String
  | [] => []
  | x :: rest => insertAsc x (sortStrings rest)

/-- `specialties_from_site` (`src/app.py` 54-64). -/
def specialties_from_site (soup : Option Soup) : String :=
  match soup with
  | none => "Search limited"
  | some sp =>
    let text := pyLower sp.text
    let found := sortStrings ((specialtyKeywords.filter (fun k => strIn k text)).dedup)
    if found ≠ [] then String.intercalate ", " found else "Search limited"

/-- `website_health` (`src/app.py` 321-341).  Takes the original URL, the
optional parsed document and the optional measured load time; returns the
`"N/100"` score string and the `" | "`-joined checklist.  Note the
sentinel pair is produced only for an empty URL. -/
def website_health (url : String) (soup : Option Soup) (load_time : Option ℚ) :
    String × String :=
  if url = "" then ("Search limited", "No URL")
  else
    let httpsOk := "https".data.isPrefixOf (pyLower url).data
    let s1 : Nat := if httpsOk then 34 else 0
    let c1 : String := if httpsOk then "HTTPS ✅" else "HTTPS ❌"
    let mobileOk := match soup with
      | some sp => sp.hasViewportMeta
      | none => false
    let s2 : Nat := if mobileOk then 33 else 0
    let c2 : String := if mobileOk then "Mobile-friendly ✅" else "Mobile-friendly ❌"
    let s3 : Nat := match load_time with
      | some t => if t < 2 then 33 else if t < 5 then 16 else 0
      | none => 0
    let c3 : String := match load_time with
      | some t =>
        if t < 2 then "Load speed ✅ (" ++ format2 t ++ "s)"
        else if t < 5 then "Load speed ⚠️ (" ++ format2 t ++ "s)"
        else "Load speed ❌ (" ++ format2 t ++ "s)"
      | none => "Load speed ❓"
    (toString (min (s1 + s2 + s3) 100) ++ "/100",
     String.intercalate " | " [c1, c2, c3])

/-- `social_presence_from_site` (`src/app.py` 343-352): scan anchor hrefs
for the two platform substrings. -/
def social_presence_from_site (soup : Option Soup) : String × String :=
  match soup with
  | none => ("Search limited", "Search limited")
  | some sp =>
    let fb := sp.hrefs.any (fun l => strIn "facebook.com" l)
    let ig := sp.hrefs.any (fun l => strIn "instagram.com" l)
    let present :=
      if fb ∧ ig then "Facebook, Instagram"
      else if fb then "Facebook"
      else if ig then "Instagram"
      else "None"
    (present, "Follower counts & activity require platform APIs/login")

/-- `appointment_booking_from_site` (`src/app.py` 354-361). -/
def appointment_booking_from_site (soup : Option Soup) : String :=
  match soup with
  | none => "Search limited"
  | some sp =>
    let text := pyLower sp.text
    if strIn "book" text ∨ strIn "appointment" text ∨ strIn "schedule" text ∨
        strIn "reserve" text then
      if strIn "calendly" text ∨ strIn "zocdoc" text ∨ strIn "square appointments" text then
        "Online booking (embedded)"
      else "Online booking (link/form)"
    else "Phone-only or unclear"

/-- Match `[^.]*insurance[^.]*\.` at the head of `l`: the final `\.` must be
the first `'.'` (since `[^.]*` cannot cross one), so a match exists iff the
dot-free head segment contains `"insurance"` and a `'.'` follows; the whole
match is then the segment including that dot. -/
def insMatchAt (l : List Char) : Option (List Char) :=
  let seg := l.takeWhile (fun c => c ≠ '.')
  if seg.length < l.length ∧ hasSub seg "insurance".data then
    some (l.take (seg.length + 1))
  else none

/-- `re.search(r"([^.]*insurance[^.]*\.)", text)`: leftmost match. -/
def insSearch : List Char → Option (List Char)
  | [] => none
  | c :: rest =>
    match insMatchAt (c :: rest) with
    | some m => some m
    | none => insSearch rest

/-- `insurance_from_site` (`src/app.py` 363-369). -/
def insurance_from_site (soup : Option Soup) : String :=
  match soup with
  | none => "Search limited"
  | some sp =>
    let text := pyLower sp.text
    if strIn "insurance" text ∨ strIn "we accept" text ∨ strIn "ppo" text ∨
        strIn "delta dental" text then
      match insSearch text.data with
      | some m => String.mk m
      | none => "Mentioned on site"
    else "Unclear"

/-- `media_count_from_site` (`src/app.py` 371-375). -/
def media_count_from_site (soup : Option Soup) : String :=
  match soup with
  | none => "Search limited"
  | some sp => toString sp.imgCount ++ " photos, " ++ toString sp.vidCount ++ " videos"

/-- `advertising_signals` (`src/app.py` 377-385): substring-scan the raw
markup for analytics/pixel markers. -/
def advertising_signals (soup : Option Soup) : String :=
  match soup with
  | none => "Search limited"
  | some sp =>
    let signals :=
      (if strIn "gtag(" sp.html ∨ strIn "gtag.js" sp.html ∨
          strIn "www.googletagmanager.com" sp.html then ["Google tag"] else []) ++
      (if strIn "fbq(" sp.html then ["Facebook Pixel"] else [])
    if signals ≠ [] then String.intercalate ", " signals else "None detected"

/-! ### Listing resolver (`find_best_place_id`, `src/app.py` 97-117)

A Places text-search response: status string plus result list; each result
has an optional `place_id` field.  The network layer is an oracle
`String → Option TextSearchResp` (`none` = `places_text_search` returned
`None`).  `urlparse`-based domain extraction (`get_domain`) is an external
library call, modelled as an explicit function parameter `domainOf`
(`none` = exception path). -/

structure Place where
  place_id : Option String

structure TextSearchResp where
  status : String
  results : List Place

/-- The ordered candidate query list built by `find_best_place_id`
(lines 99-107): "name address" when both non-empty, then the bare name,
then the website domain when extractable and non-empty. -/
def build_queries (domainOf : String → Option String)
    (clinic_name address website : String) : List String :=
  (if clinic_name ≠ "" ∧ address ≠ "" then [clinic_name ++ " " ++ address] else []) ++
  (if clinic_name ≠ "" then [clinic_name] else []) ++
  (if website ≠ "" then
    match domainOf website with
    | some d => if d ≠ "" then [d] else []
    | none => []
   else [])

/-- The query loop of `find_best_place_id` (lines 109-117): skip a `None`
response or a status outside `{"OK", "ZERO_RESULTS"}`; on a non-empty
result list return the top result's `place_id` immediately; otherwise fall
through to the next query. -/
def find_place_loop (oracle : String → Option TextSearchResp) :
    List String → Option String
  | [] => none
  | q :: rest =>
    match oracle q with
    | none => find_place_loop oracle rest
    | some js =>
      if js.status = "OK" ∨ js.status = "ZERO_RESULTS" then
        match js.results with
        | [] => find_place_loop oracle rest
        | c :: _ => c.place_id
      else find_place_loop oracle rest

/-- The queries actually issued by the loop: every iteration calls
`places_text_search(q)` before branching, and the loop stops after the
first query that yields a non-empty result list. -/
def issued_queries (oracle : String → Option TextSearchResp) :
    List String → List String
  | [] => []
  | q :: rest =>
    q :: (match oracle q with
          | none => issued_queries oracle rest
          | some js =>
            if js.status = "OK" ∨ js.status = "ZERO_RESULTS" then
              match js.results with
              | [] => issued_queries oracle rest
              | _ :: _ => []
            else issued_queries oracle rest)

/-- `find_best_place_id` (`src/app.py` 97-117). -/
def find_best_place_id (oracle : String → Option TextSearchResp)
    (domainOf : String → Option String)
    (clinic_name address website : String) : Option String :=
  find_place_loop oracle (build_queries domainOf clinic_name address website)

/-! ### Listing record and GBP completeness (`src/app.py` 119-164)

`PlaceResult` models the Places-details `result` dict restricted to the
fields `gbp_completeness_estimate` reads.  Key-presence tests (`"x" in res`)
are `Bool`/`Option` fields; truthiness tests (`res.get("x")`) are
`Option` values tested non-`none` and non-empty/nonzero. -/

structure PlaceResult where
  /-- `"opening_hours" in res`. -/
  opening_hours_mem : Bool
  /-- `res["photos"]` when the key is present. -/
  photos : Option (List String)
  /-- `res.get("website")`. -/
  website : Option String
  /-- `res.get("international_phone_number")`. -/
  international_phone_number : Option String
  /-- `res.get("rating")`. -/
  rating : Option ℚ
  /-- `res.get("user_ratings_total")`. -/
  user_ratings_total : Option ℤ
  /-- `res.get("types", ...)` — `"types" in res` iff `some`. -/
  types : Option (List String)
  /-- `res.get("formatted_address")`. -/
  formatted_address : Option String

structure Details where
  status : String
  result : PlaceResult

/-- Python truthiness of an optional string (`None` and `""` are falsy). -/
def truthyStr : Option String → Bool
  | none => false
  | some s => s ≠ ""

/-- The additive GBP score of `gbp_completeness_estimate`, summed in the
source's check order.  The photos check requires `"photos" in res` *and*
`len(res["photos"]) >= 3`. -/
def gbpScore (res : PlaceResult) : Nat :=
  (if res.opening_hours_mem then 20 else 0) +
  (if (res.photos.map List.length).getD 0 ≥ 3 ∧ res.photos.isSome then 20 else 0) +
  (if truthyStr res.website then 15 else 0) +
  (if truthyStr res.international_phone_number then 15 else 0) +
  (if (res.rating.getD 0 ≠ 0 ∧ res.rating.isSome) ∧ res.user_ratings_total.getD 0 > 0
   then 10 else 0) +
  (if res.types.isSome ∧
      ((res.types.getD []).contains "dentist" ∨ (res.types.getD []).contains "dental_clinic")
   then 10 else 0) +
  (if truthyStr res.formatted_address then 10 else 0)

/-- The checklist strings of `gbp_completeness_estimate`, in source order. -/
def gbpChecks (res : PlaceResult) : List String :=
  [if res.opening_hours_mem then "Hours ✅" else "Hours ❌",
   (match res.photos with
    | some ps =>
      if ps.length ≥ 3 then "Photos ✅ (" ++ toString ps.length ++ ")"
      else "Photos ❌ (" ++ toString ps.length ++ ")"
    | none => "Photos ❌ (0)"),
   if truthyStr res.website then "Website ✅" else "Website ❌",
   if truthyStr res.international_phone_number then "Phone ✅" else "Phone ❌",
   if (res.rating.getD 0 ≠ 0 ∧ res.rating.isSome) ∧ res.user_ratings_total.getD 0 > 0
   then "Reviews ✅" else "Reviews ❌",
   if res.types.isSome ∧
      ((res.types.getD []).contains "dentist" ∨ (res.types.getD []).contains "dental_clinic")
   then "Category ✅" else "Category ❌",
   if truthyStr res.formatted_address then "Address ✅" else "Address ❌"]

/-- `gbp_completeness_estimate` (`src/app.py` 119-164): the sentinel pair
(`"Search limited"`, `None`) for an absent or non-OK details response, else
the capped score string and the joined checklist. -/
def gbp_completeness_estimate (details : Option Details) : String × Option String :=
  match details with
  | none => ("Search limited", none)
  | some d =>
    if d.status ≠ "OK" then ("Search limited", none)
    else
      (toString (min (gbpScore d.result) 100) ++ "/100",
       some (String.intercalate " | " (gbpChecks d.result)))

/-! ### Review text analyzer (`analyze_review_texts`, `src/app.py` 217-281) -/

/-- A simplified review record: `rv.get("text")` may be `None`. -/
structure Review where
  text : Option String
deriving DecidableEq

/-- The fixed positive theme → keyword table (insertion order). -/
def positive_themes : List (String × List String) :=
  [("friendly staff", ["friendly", "kind", "caring", "nice", "welcoming", "courteous"]),
   ("cleanliness", ["clean", "hygienic", "spotless"]),
   ("pain-free experience", ["painless", "no pain", "gentle", "pain free", "comfortable"]),
   ("professionalism", ["professional", "expert", "knowledgeable"]),
   ("communication", ["explained", "explain", "transparent", "informative"])]

/-- The fixed negative theme → keyword table (insertion order). -/
def negative_themes : List (String × List String) :=
  [("long wait", ["wait", "waiting", "late", "delay", "overbooked"]),
   ("billing issues", ["billing", "charges", "overcharged", "insurance problem", "invoice"]),
   ("front desk experience", ["front desk", "reception", "rude", "unhelpful"]),
   ("pain/discomfort", ["painful", "hurt", "rough", "uncomfortable"]),
   ("upselling", ["upsell", "salesy", "sold me", "pushy"])]

/-- Total keyword hit count of one theme over the text blob:
`sum(texts.count(kw.lower()) for kw in kws)`. -/
def themeCount (texts : String) (kws : List String) : Nat :=
  (kws.map (fun kw => countOccs (pyLower kw).data texts.data)).sum

/-- Stable descending insertion by hit count (Python `sorted(...,
key=lambda x: x[1], reverse=True)` keeps equal-count themes in dict
order). -/
def insertDesc (x : String × Nat) : List (String × Nat) → List (String × Nat)
  | [] => [x]
  | y :: rest => if x.2 ≥ y.2 then x :: y :: rest else y :: insertDesc x rest

/-- Stable descending sort by hit count. -/
def sortCountDesc : List (String × Nat) → List (String × Nat)
  | [] => []
  | x :: rest => insertDesc x (sortCountDesc rest)

/-- `count_theme_hits`: per-theme totals, zero-count themes dropped,
sorted descending by count. -/
def count_theme_hits (texts : String) (themes : List (String × List String)) :
    List (String × Nat) :=
  sortCountDesc (((themes.map (fun p => (p.1, themeCount texts p.2))).filter
    (fun p => p.2 > 0)))

/-- `to_theme_str`: `"name (count); ..."` over the top 3, or
`"None detected"`. -/
def to_theme_str (items : List (String × Nat)) : String :=
  match items with
  | [] => "None detected"
  | _ =>
    String.intercalate "; "
      ((items.take 3).map (fun p => p.1 ++ " (" ++ toString p.2 ++ ")"))

/-- The concatenated lower-cased review text blob:
`" ".join((rv.get("text") or "") for rv in reviews).lower()`. -/
def reviewBlob (reviews : List Review) : String :=
  pyLower (String.intercalate " " (reviews.map (fun rv => rv.text.getD "")))

/-- `analyze_review_texts` (`src/app.py` 217-281): returns
`(sentiment_highlights, top_positive_themes, top_negative_themes)`. -/
def analyze_review_texts (reviews : List Review) : String × String × String :=
  if reviews = [] then ("Search limited", "Search limited", "Search limited")
  else
    let texts := reviewBlob reviews
    let pos_hits := count_theme_hits texts positive_themes
    let neg_hits := count_theme_hits texts negative_themes
    let pos_total := (pos_hits.map Prod.snd).sum
    let neg_total := (neg_hits.map Prod.snd).sum
    let sentiment :=
      if pos_total = 0 ∧ neg_total = 0 then "Mixed/neutral (few obvious themes)"
      else if pos_total ≥ neg_total then
        "Mostly positive mentions (" ++ toString pos_total ++ " vs " ++
          toString neg_total ++ ")"
      else
        "Mixed with notable concerns (" ++ toString neg_total ++ " negatives vs " ++
          toString pos_total ++ " positives)"
    (sentiment, to_theme_str pos_hits, to_theme_str neg_hits)

/-! ### Helper definitions used to state claims about the aggregator -/

/-- The website-health contribution to `vis_parts` (present only when the
input is numeric). -/
def whPart (i : SmileInputs) : List ℚ :=
  match i.wh_pct with
  | some w => [w]
  | none => []

/-- The social-presence contribution to `vis_parts` (appended on every
path of the if/elif/else). -/
def socialVal (i : SmileInputs) : ℚ :=
  if i.social_present = "Facebook, Instagram" then 100
  else if i.social_present = "Facebook" ∨ i.social_present = "Instagram" then 60
  else 0

theorem vis_parts_eq (i : SmileInputs) : vis_parts i = whPart i ++ [socialVal i] := by
  rfl

/-! ### Helper lemmas -/

theorem format2_three_halves : format2 (3/2) = "1.50" := by
  have h : roundHE (3/2 * 100) = 150 := by norm_num [roundHE]
  rw [format2, h]; rfl

/-! ## Claim C10

The social-presence branch of `compute_smile_score` appends a value (100,
60 or 0) on every path, so the visibility contributing list is never empty
and the `if vis_parts else 0` fallback for the visibility average is
unreachable. -/

/-- C10: for every aggregator input, `vis_parts` is non-empty, so the
visibility average is always the genuine `sum/len` and never the empty-set
fallback (no division by zero). -/
theorem C10_vis_parts_never_empty (i : SmileInputs) :
    vis_parts i ≠ [] ∧
    avg0 (vis_parts i) = (vis_parts i).sum / ((vis_parts i).length : ℚ) := by
  have h : vis_parts i ≠ [] := by
    rw [vis_parts_eq]
    intro hc
    exact absurd (congrArg List.length hc) (by simp)
  exact ⟨h, by rw [avg0, if_neg h]⟩

/-! ## Claim C1

The claim states `composite == round(visibility + reputation + experience,
1)` where the three bucket scores are *the values the aggregator returns*,
i.e. the individually rounded ones.  The source computes the composite
from the *unrounded* bucket scores (`total = round(vis_score + rep_score +
exp_score, 1)`), and the two disagree: with `wh_pct = 0.25`, no social
links, no rating and 3 reviews the unrounded buckets are 0.0375, 0.24 and
0, so the composite is `round(0.2775, 1) = 0.3` while the returned buckets
round to 0.0, 0.2 and 0, summing to 0.2. -/

/-- Concrete aggregator input refuting C1 as stated. -/
def c1Input : SmileInputs :=
  ⟨some (1/4), "None", none, some 3, none, false, false, false⟩

theorem c1Input_buckets :
    vis_score_u c1Input = 3/80 ∧ rep_score_u c1Input = 6/25 ∧
    exp_score_u c1Input = 0 := by
  refine ⟨?_, ?_, ?_⟩
  · show avg0 (vis_parts c1Input) / 100 * 30 = 3/80
    have h : vis_parts c1Input = [1/4, 0] := by
      rw [vis_parts_eq]; rfl
    rw [h, avg0, if_neg (by simp)]
    norm_num
  · show avg0 (rep_parts c1Input) / 100 * 40 = 6/25
    have h : rep_parts c1Input = [min 1 (3/500) * 100] := rfl
    rw [h, avg0, if_neg (by simp)]
    norm_num
  · show avg0 (exp_parts c1Input) / 100 * 30 = 0
    have h : exp_parts c1Input = [] := rfl
    rw [h, avg0, if_pos rfl]
    norm_num

/-- C1 counterexample: at `c1Input` the returned composite (0.3) differs
from the sum of the three returned bucket scores rounded to one decimal
place (0.2). -/
theorem C1_counterexample :
    (compute_smile_score c1Input).1 ≠
      round1 ((compute_smile_score c1Input).2.1 +
        (compute_smile_score c1Input).2.2.1 +
        (compute_smile_score c1Input).2.2.2) := by
  obtain ⟨hv, hr, he⟩ := c1Input_buckets
  have hc : compute_smile_score c1Input = (3/10, 0, 1/5, 0) := by
    rw [compute_smile_score, hv, hr, he]
    norm_num [round1, roundHE]
  rw [hc]
  norm_num [round1, roundHE]

/-- C1 amended: the composite equals `round(·, 1)` of the sum of the three
*unrounded* bucket scores (the values before the per-bucket display
rounding); it need not equal the rounded sum of the returned, rounded
buckets. -/
theorem C1_amended_composite_from_unrounded (i : SmileInputs) :
    (compute_smile_score i).1 =
      round1 (vis_score_u i + rep_score_u i + exp_score_u i) := by
  rfl

/-! ## Claim C6

The claim's scenario value is wrong: `(4.8/5*100 + 100)/2/100*40 = 39.2`,
not 37.6, and the code returns 39.2 (= 196/5). -/

/-- Concrete aggregator input for the C6 scenario (rating 4.8 = 24/5,
600 reviews). -/
def c6Input : SmileInputs :=
  ⟨none, "Search limited", some (24/5), some 600, none, false, false, false⟩

/-- C6 counterexample: at rating 4.8 and 600 reviews the returned
reputation bucket is 39.2, not the claimed 37.6. -/
theorem C6_counterexample :
    (compute_smile_score c6Input).2.2.1 = 196/5 ∧ (196/5 : ℚ) ≠ 188/5 := by
  have hr : rep_score_u c6Input = 196/5 := by
    show avg0 (rep_parts c6Input) / 100 * 40 = 196/5
    have h : rep_parts c6Input = [24/5/5*100, min 1 (600/500) * 100] := rfl
    rw [h, avg0, if_neg (by simp)]
    norm_num
  constructor
  · show round1 (rep_score_u c6Input) = 196/5
    rw [hr]
    norm_num [round1, roundHE]
  · norm_num

/-- C6 amended: for rating 4.8 and review count 600 (all other inputs
arbitrary) the reputation bucket equals
`round((4.8/5*100 + 100)/2/100*40, 1) = 39.2`. -/
theorem C6_amended_reputation_39_2 (i : SmileInputs)
    (h1 : i.rating = some (24/5)) (h2 : i.reviews_total = some 600) :
    (compute_smile_score i).2.2.1 = round1 ((24/5/5*100 + 100)/2/100*40) ∧
    (compute_smile_score i).2.2.1 = 196/5 := by
  have hr : rep_score_u i = 196/5 := by
    show avg0 (rep_parts i) / 100 * 40 = 196/5
    have h : rep_parts i = [24/5/5*100, min 1 (600/500) * 100] := by
      simp [rep_parts, h1, h2]
    rw [h, avg0, if_neg (by simp)]
    norm_num
  have hv : (compute_smile_score i).2.2.1 = 196/5 := by
    show round1 (rep_score_u i) = 196/5
    rw [hr]
    norm_num [round1, roundHE]
  refine ⟨?_, hv⟩
  rw [hv]
  norm_num [round1, roundHE]

/-- C6 witness: the amended statement at the concrete scenario input. -/
theorem C6_witness :
    (compute_smile_score c6Input).2.2.1 = round1 ((24/5/5*100 + 100)/2/100*40) ∧
    (compute_smile_score c6Input).2.2.1 = 196/5 :=
  C6_amended_reputation_39_2 c6Input rfl rfl

/-! ## Claim C7

A sentinel (non-numeric) `wh_pct`, `rating` or `reviews_total` indeed
contributes nothing to its bucket's average, but the social-presence input
is different: the if/elif/else appends `0` for *any* string that is not a
recognised platform label, the sentinel `"Search limited"` included.  So a
sentinel social presence contributes a 0 to the visibility average instead
of being dropped, and the claim's "in particular" case fails. -/

/-- Concrete aggregator input refuting C7: website health 100, sentinel
social presence.  The code averages {100, 0} (bucket 15), while the claim
predicts the average of the remaining numeric contributor alone, {100}
(bucket 30). -/
def c7Input : SmileInputs :=
  ⟨some 100, "Search limited", none, none, none, false, false, false⟩

/-- C7 counterexample: with a sentinel social-presence input the returned
visibility bucket is 15, not the 30 obtained by averaging only the
remaining numeric contributor (the website-health percentage 100). -/
theorem C7_counterexample :
    (compute_smile_score c7Input).2.1 = 15 ∧
    (compute_smile_score c7Input).2.1 ≠ round1 (avg0 [(100 : ℚ)] / 100 * 30) := by
  have hv : vis_score_u c7Input = 15 := by
    show avg0 (vis_parts c7Input) / 100 * 30 = 15
    have h : vis_parts c7Input = [100, 0] := by
      rw [vis_parts_eq]; rfl
    rw [h, avg0, if_neg (by simp)]
    norm_num
  have h15 : (compute_smile_score c7Input).2.1 = 15 := by
    show round1 (vis_score_u c7Input) = 15
    rw [hv]
    norm_num [round1, roundHE]
  refine ⟨h15, ?_⟩
  rw [h15, avg0, if_neg (by simp)]
  norm_num [round1, roundHE]

/-- C7 amended: a sentinel `wh_pct` (non-numeric) contributes nothing to
the visibility average, and sentinel rating and review-count inputs
contribute nothing to the reputation average (both absent ⇒ empty list ⇒
average 0); but a sentinel social-presence string is classified with the
"none" case and contributes a 0 entry to the visibility average. -/
theorem C7_amended_sentinel_contributions (i : SmileInputs) :
    (i.wh_pct = none → vis_parts i = [socialVal i]) ∧
    (i.rating = none → i.reviews_total = none →
      rep_parts i = [] ∧ avg0 (rep_parts i) = 0) ∧
    (i.social_present = "Search limited" → vis_parts i = whPart i ++ [0]) := by
  refine ⟨?_, ?_, ?_⟩
  · intro h
    rw [vis_parts_eq, whPart, h]
    rfl
  · intro h1 h2
    have h : rep_parts i = [] := by
      simp [rep_parts, h1, h2]
    exact ⟨h, by rw [h, avg0, if_pos rfl]⟩
  · intro h
    rw [vis_parts_eq, socialVal, h]
    rfl

/-- C7 witness: the amended statement discharged at an input with all
three numeric metrics sentinel and a sentinel social presence. -/
theorem C7_witness :
    vis_parts ⟨none, "Search limited", none, none, none, false, false, false⟩ =
      [socialVal ⟨none, "Search limited", none, none, none, false, false, false⟩] ∧
    rep_parts ⟨none, "Search limited", none, none, none, false, false, false⟩ = [] ∧
    vis_parts ⟨none, "Search limited", none, none, none, false, false, false⟩ =
      whPart ⟨none, "Search limited", none, none, none, false, false, false⟩ ++ [0] := by
  obtain ⟨h1, h2, h3⟩ :=
    C7_amended_sentinel_contributions ⟨none, "Search limited", none, none, none, false, false, false⟩
  exact ⟨h1 rfl, (h2 rfl rfl).1, h3 rfl⟩

/-! ## Claim C2

On an absent (`None`) document every site extractor except
`website_health` returns the sentinel.  `website_health` is the exception
the claim explicitly includes: its sentinel branch tests only the URL, so
with a non-empty URL and an absent document it still returns a score
computed from the URL scheme and latency (e.g. `"34/100"` for an HTTPS
URL).  The claim as stated is therefore false. -/

/-- C2 counterexample: the website-health extractor on an absent document
but non-empty HTTPS URL returns the score `"34/100"`, not the sentinel. -/
theorem C2_counterexample :
    (website_health "https://x" none none).1 = "34/100" ∧
    (website_health "https://x" none none).1 ≠ "Search limited" := by
  constructor <;> decide

/-- C2 amended: every site extractor other than `website_health` returns
its sentinel on an absent document (they are total functions, so no
exception is possible), and `website_health` returns its sentinel pair
exactly when the URL is empty, for every document and latency. -/
theorem C2_amended_absent_doc_sentinels :
    years_in_operation_from_site none = "Search limited" ∧
    specialties_from_site none = "Search limited" ∧
    social_presence_from_site none = ("Search limited", "Search limited") ∧
    appointment_booking_from_site none = "Search limited" ∧
    insurance_from_site none = "Search limited" ∧
    media_count_from_site none = "Search limited" ∧
    advertising_signals none = "Search limited" ∧
    (∀ (soup : Option Soup) (t : Option ℚ),
      website_health "" soup t = ("Search limited", "No URL")) :=
  ⟨rfl, rfl, rfl, rfl, rfl, rfl, rfl, fun _ _ => rfl⟩

/-! ## Claim C3

In the claimed scenario (non-HTTPS URL, viewport present, 1.5 s load) the
passing checks are Mobile-friendly (+33) and Load speed (+33); HTTPS
contributes 0.  The score is therefore `"66/100"`, not the claimed
`"67/100"` (67 would require the +34 HTTPS check instead of one of the
+33 checks).  The checklist string is as claimed. -/

/-- Shared evaluation: `website_health` on any non-empty non-HTTPS URL, a
document with a viewport tag, and a 1.5 s load time. -/
theorem website_health_no_https_viewport_fast (url : String) (sp : Soup)
    (hu : ¬ url = "") (hh : "https".data.isPrefixOf (pyLower url).data = false)
    (hv : sp.hasViewportMeta = true) :
    website_health url (some sp) (some (3/2)) =
      ("66/100", "HTTPS ❌ | Mobile-friendly ✅ | Load speed ✅ (1.50s)") := by
  rw [website_health, if_neg hu]
  have h2 : ((3 : ℚ)/2 < 2) = True := by norm_num
  simp only [hh, hv, h2, Bool.false_eq_true, if_false, if_true, format2_three_halves]
  rfl

/-- The document used in the C3 scenario: it has a viewport meta tag. -/
def c3Soup : Soup := ⟨"", true, [], 0, 0, ""⟩

/-- C3 counterexample: in the claimed scenario the extractor returns the
score string `"66/100"`, not `"67/100"` (the checklist is as claimed). -/
theorem C3_counterexample :
    website_health "http://example.com" (some c3Soup) (some (3/2)) =
      ("66/100", "HTTPS ❌ | Mobile-friendly ✅ | Load speed ✅ (1.50s)") ∧
    ("66/100" : String) ≠ "67/100" := by
  refine ⟨website_health_no_https_viewport_fast _ _ (by decide) (by decide) rfl, by decide⟩

/-- C3 amended: for every non-empty URL whose lower-cased form does not
start with `"https"` and every document with a viewport meta tag, a 1.5 s
load time yields website health `"66/100"` with checklist
`"HTTPS ❌ | Mobile-friendly ✅ | Load speed ✅ (1.50s)"`. -/
theorem C3_amended_scenario_66 (url : String) (sp : Soup)
    (hu : ¬ url = "") (hh : "https".data.isPrefixOf (pyLower url).data = false)
    (hv : sp.hasViewportMeta = true) :
    website_health url (some sp) (some (3/2)) =
      ("66/100", "HTTPS ❌ | Mobile-friendly ✅ | Load speed ✅ (1.50s)") :=
  website_health_no_https_viewport_fast url sp hu hh hv

/-- C3 witness: the amended scenario discharged at a concrete URL and
document. -/
theorem C3_witness :
    website_health "http://example.com" (some ⟨"", true, [], 0, 0, ""⟩) (some (3/2)) =
      ("66/100", "HTTPS ❌ | Mobile-friendly ✅ | Load speed ✅ (1.50s)") :=
  C3_amended_scenario_66 "http://example.com" ⟨"", true, [], 0, 0, ""⟩
    (by decide) (by decide) rfl

/-! ## Claim C4

The fallback of `years_in_operation_from_site` is
`re.findall(r"(19|20)\d{2}", text)`, but because the pattern contains a
capture group, Python's `findall` returns the *group* matches — the
two-character prefixes `"19"`/`"20"` — not the four-digit years.
`min(years)` is then the lexicographic minimum of those prefixes, so the
function returns `"19"` (or `"20"`), never the earliest year.  This
contradicts the function's own `# fallback earliest year` comment and the
variable name `years`: the code is wrong, the claim describes the intent. -/

/-- C4: on a document whose text has no `established`-style pattern but
contains the years 1995 and 2003, the code's fallback evaluates to `"19"`
— the captured group of the first match — instead of the claimed earliest
year `"1995"`. -/
theorem C4_fallback_returns_captured_group :
    searchEst ("Copyright 1995 - 2003").data = none ∧
    findYears ("Copyright 1995 - 2003").data = ["19", "20"] ∧
    years_in_operation_from_site (some ⟨"Copyright 1995 - 2003", false, [], 0, 0, ""⟩) =
      "19" ∧
    ("19" : String) ≠ "1995" := by
  refine ⟨by decide, by decide, ?_, by decide⟩
  rfl

/-! ## Claim C5

`gbp_completeness_estimate`'s photo check is
`"photos" in res and len(res["photos"]) >= 3`: it awards +20 only for at
least *three* photo references, not at least one as the claim states.  A
record with all seven signals but only one photo scores 80, not 100.  The
other six weights and the `[0,100]` bound are as claimed, and a record
passing all seven checks (with ≥3 photos) scores exactly 100. -/

/-- An OK listing record with all seven positive signals but exactly one
photo reference. -/
def c5Result : PlaceResult :=
  ⟨true, some ["p1"], some "https://clinic.example", some "+1 555 0100",
   some 5, some 120, some ["dentist"], some "1 Main St"⟩

/-- C5 counterexample: under the claim each of the seven checks of
`c5Result` contributes its weight (it has a photo reference), giving 100;
the code scores it 80 because the photos check requires at least three
references. -/
theorem C5_counterexample :
    (gbp_completeness_estimate (some ⟨"OK", c5Result⟩)).1 = "80/100" ∧
    ("80/100" : String) ≠ "100/100" := by
  constructor
  · have hsc : gbpScore c5Result = 80 := by decide
    rw [gbp_completeness_estimate]
    rw [if_neg (by simp)]
    rw [hsc]
    rfl
  · decide

/-- C5 amended: the GBP completeness score is always in `[0, 100]`; each
check contributes its fixed weight with the photo check requiring at least
*three* photo references; and an OK record with hours, ≥3 photos, website,
phone, nonzero rating with positive rating count, a dental category tag
and a formatted address scores exactly `"100/100"`. -/
theorem C5_amended_gbp_bounds_and_full_score (res : PlaceResult) :
    gbpScore res ≤ 100 ∧
    (res.opening_hours_mem = true →
     (∀ ps, res.photos = some ps → 3 ≤ ps.length) → res.photos.isSome = true →
     truthyStr res.website = true →
     truthyStr res.international_phone_number = true →
     (∀ r, res.rating = some r → r ≠ 0) → res.rating.isSome = true →
     0 < res.user_ratings_total.getD 0 →
     (res.types.getD []).contains "dentist" = true → res.types.isSome = true →
     truthyStr res.formatted_address = true →
     (gbp_completeness_estimate (some ⟨"OK", res⟩)).1 = "100/100") := by
  constructor
  · rw [gbpScore]
    split_ifs <;> omega
  · intro h1 h2 h2s h3 h4 h5 h5s h6 h7 h7s h8
    have hph : (res.photos.map List.length).getD 0 ≥ 3 := by
      cases hp : res.photos with
      | none => rw [hp] at h2s; exact absurd h2s (by simp)
      | some ps => simpa [hp] using h2 ps hp
    have hrat : res.rating.getD 0 ≠ 0 := by
      cases hr : res.rating with
      | none => rw [hr] at h5s; exact absurd h5s (by simp)
      | some r => simpa [hr] using h5 r hr
    have hsc : gbpScore res = 100 := by
      rw [gbpScore]
      rw [if_pos h1, if_pos ⟨hph, h2s⟩, if_pos h3, if_pos h4,
        if_pos ⟨⟨hrat, h5s⟩, h6⟩, if_pos ⟨h7s, Or.inl h7⟩, if_pos h8]
    rw [gbp_completeness_estimate]
    rw [if_neg (by simp)]
    rw [hsc]
    rfl

/-- C5 witness: the amended statement discharged at a fully complete
record with three photo references. -/
theorem C5_witness :
    gbpScore (⟨true, some ["p1", "p2", "p3"], some "https://clinic.example",
      some "+1 555 0100", some 5, some 120, some ["dentist"], some "1 Main St"⟩ :
        PlaceResult) ≤ 100 ∧
    (gbp_completeness_estimate (some ⟨"OK",
      ⟨true, some ["p1", "p2", "p3"], some "https://clinic.example",
       some "+1 555 0100", some 5, some 120, some ["dentist"], some "1 Main St"⟩⟩)).1 =
      "100/100" := by
  obtain ⟨hb, hf⟩ := C5_amended_gbp_bounds_and_full_score
    ⟨true, some ["p1", "p2", "p3"], some "https://clinic.example",
     some "+1 555 0100", some 5, some 120, some ["dentist"], some "1 Main St"⟩
  refine ⟨hb, hf rfl ?_ rfl rfl rfl ?_ rfl (by norm_num) rfl rfl rfl⟩
  · intro ps hps
    cases hps
    decide
  · intro r hr
    cases hr
    norm_num

/-! ## Claim C8

With name and address both present, `find_best_place_id` puts the
`"name address"` query first; if the oracle answers it with status `"OK"`
and a non-empty result list, the loop returns that query's top result
identifier immediately, and the name-only query is never issued —
whatever the oracle would answer for it. -/

/-- Length fact used to separate the two candidate queries. -/
theorem name_ne_joined (name addr : String) : name ≠ name ++ " " ++ addr := by
  intro h
  have hl := congrArg String.length h
  rw [String.length_append, String.length_append] at hl
  have hsp : (" " : String).length = 1 := rfl
  rw [hsp] at hl
  omega

/-- C8: for every oracle, domain extractor, and inputs with name and
address non-empty, if the `"name address"` text search succeeds (`"OK"`,
non-empty results) then the resolver returns that query's top
`place_id`, and the name-only query is not among the issued queries. -/
theorem C8_name_address_first (oracle : String → Option TextSearchResp)
    (domainOf : String → Option String) (name addr website : String)
    (js : TextSearchResp) (c : Place) (tl : List Place)
    (hn : name ≠ "") (ha : addr ≠ "")
    (ho : oracle (name ++ " " ++ addr) = some js)
    (hs : js.status = "OK") (hr : js.results = c :: tl) :
    find_best_place_id oracle domainOf name addr website = c.place_id ∧
    name ∉ issued_queries oracle (build_queries domainOf name addr website) := by
  have hq : build_queries domainOf name addr website =
      (name ++ " " ++ addr) :: name ::
        (if website ≠ "" then
          match domainOf website with
          | some d => if d ≠ "" then [d] else []
          | none => []
         else []) := by
    rw [build_queries, if_pos ⟨hn, ha⟩, if_pos hn]
    rfl
  constructor
  · rw [find_best_place_id, hq]
    simp only [find_place_loop, ho, hs, hr]
    simp
  · rw [hq]
    simp only [issued_queries, ho, hs, hr]
    simp only [String.reduceEq, or_false, if_true, List.mem_cons, List.not_mem_nil,
      or_false, true_or, reduceIte]
    exact name_ne_joined name addr

/-- C8 witness: a concrete oracle under which the joined query returns a
listing `pid0` while the name-only query would return a different one;
the resolver returns `pid0` and never issues the name-only query. -/
theorem C8_witness :
    find_best_place_id
      (fun q => if q = "Acme Dental 1 Main St" then some ⟨"OK", [⟨some "pid0"⟩]⟩
                else some ⟨"OK", [⟨some "other"⟩]⟩)
      (fun _ => none) "Acme Dental" "1 Main St" "" = some "pid0" ∧
    "Acme Dental" ∉ issued_queries
      (fun q => if q = "Acme Dental 1 Main St" then some ⟨"OK", [⟨some "pid0"⟩]⟩
                else some ⟨"OK", [⟨some "other"⟩]⟩)
      (build_queries (fun _ => none) "Acme Dental" "1 Main St" "") := by
  exact C8_name_address_first _ _ "Acme Dental" "1 Main St" "" ⟨"OK", [⟨some "pid0"⟩]⟩
    ⟨some "pid0"⟩ [] (by decide) (by decide) rfl rfl rfl

/-! ## Claim C9

The empty review list yields the sentinel triple; otherwise the sentiment
string is determined by `P` and `N`, the total positive/negative keyword
counts over the concatenated lower-cased text.  The code computes its
totals over the filtered, sorted hit lists; dropping zero-count themes and
permuting preserves the sums, so they equal the claim's `P` and `N`. -/

/-- The claim's `P`: total positive-theme keyword count over a text
blob. -/
def claimP (texts : String) : Nat :=
  (positive_themes.map (fun p => themeCount texts p.2)).sum

/-- The claim's `N`: total negative-theme keyword count over a text
blob. -/
def claimN (texts : String) : Nat :=
  (negative_themes.map (fun p => themeCount texts p.2)).sum

theorem insertDesc_perm (x : String × Nat) (l : List (String × Nat)) :
    List.Perm (insertDesc x l) (x :: l) := by
  induction l with
  | nil => rfl
  | cons y rest ih =>
    rw [insertDesc]
    split
    · rfl
    · exact (List.Perm.cons y ih).trans (List.Perm.swap x y rest)

theorem sortCountDesc_perm (l : List (String × Nat)) : List.Perm (sortCountDesc l) l := by
  induction l with
  | nil => rfl
  | cons x rest ih =>
    rw [sortCountDesc]
    exact (insertDesc_perm x (sortCountDesc rest)).trans (List.Perm.cons x ih)

theorem sum_filter_pos (l : List (String × Nat)) :
    ((l.filter (fun p => p.2 > 0)).map Prod.snd).sum = (l.map Prod.snd).sum := by
  induction l with
  | nil => rfl
  | cons x rest ih =>
    by_cases h : x.2 > 0
    · simp [List.filter_cons, h, ih]
    · simp [List.filter_cons, h, ih]
      omega

theorem count_hits_sum_pos (texts : String) :
    ((count_theme_hits texts positive_themes).map Prod.snd).sum = claimP texts := by
  rw [count_theme_hits]
  rw [((sortCountDesc_perm _).map Prod.snd).sum_eq]
  rw [sum_filter_pos]
  rw [claimP, List.map_map]
  rfl

theorem count_hits_sum_neg (texts : String) :
    ((count_theme_hits texts negative_themes).map Prod.snd).sum = claimN texts := by
  rw [count_theme_hits]
  rw [((sortCountDesc_perm _).map Prod.snd).sum_eq]
  rw [sum_filter_pos]
  rw [claimN, List.map_map]
  rfl

/-- C9: for every review list — empty gives the sentinel triple; otherwise
the sentiment output is the neutral / mostly-positive / notable-concerns
string selected and formatted from `P` and `N`, the summed positive and
negative keyword counts over the concatenated lower-cased text. -/
theorem C9_sentiment_classification (reviews : List Review) :
    (reviews = [] →
      analyze_review_texts reviews =
        ("Search limited", "Search limited", "Search limited")) ∧
    (reviews ≠ [] →
      (analyze_review_texts reviews).1 =
        (if claimP (reviewBlob reviews) = 0 ∧ claimN (reviewBlob reviews) = 0 then
          "Mixed/neutral (few obvious themes)"
         else if claimP (reviewBlob reviews) ≥ claimN (reviewBlob reviews) then
          "Mostly positive mentions (" ++ toString (claimP (reviewBlob reviews)) ++
            " vs " ++ toString (claimN (reviewBlob reviews)) ++ ")"
         else
          "Mixed with notable concerns (" ++ toString (claimN (reviewBlob reviews)) ++
            " negatives vs " ++ toString (claimP (reviewBlob reviews)) ++ " positives)")) := by
  constructor
  · intro h
    rw [analyze_review_texts, if_pos h]
  · intro h
    rw [analyze_review_texts, if_neg h]
    simp only
    rw [count_hits_sum_pos, count_hits_sum_neg]

/-- C9 witness: the empty list gives the sentinel triple, and a concrete
review with two positive keyword hits and none negative is classified
"Mostly positive mentions (2 vs 0)". -/
theorem C9_witness :
    analyze_review_texts [] = ("Search limited", "Search limited", "Search limited") ∧
    (analyze_review_texts [⟨some "Friendly staff, clean rooms"⟩]).1 =
      "Mostly positive mentions (2 vs 0)" := by
  constructor
  · exact (C9_sentiment_classification []).1 rfl
  · have h := (C9_sentiment_classification [⟨some "Friendly staff, clean rooms"⟩]).2
      (by simp)
    rw [h]
    decide
